import Mathlib

/-!
Verification of `registrar/apps/common/data.py` (the `DiscoveryProgram`
cache / parser / course-key pipeline) and of the effective-permission
resolver it feeds, as a shallow embedding in Lean.

Python values flowing through the parser are modelled by the `Json`
inductive below (Python `None` and JSON `null` are the same value, so
both are `Json.null`).  Python exceptions are modelled by `Except PyErr`.
-/

/-- A Python value as handled by `DiscoveryProgram.from_json`: the decoded
JSON document.  Objects are association lists (keys assumed distinct, as
produced by a JSON decoder). -/
inductive Json where
  | null : Json
  | bool (b : Bool) : Json
  | num (n : Int) : Json
  | str (s : String) : Json
  | arr (elems : List Json) : Json
  | obj (fields : List (String × Json)) : Json

/-- The exceptions the embedded code can raise: `Http404` (raised by
`read_from_discovery` on a 404 from Discovery), other `HTTPError`s
(carrying the status code), and the `AttributeError` / `TypeError` that
Python raises when `from_json` hits a value of the wrong shape
(`.get` on a non-dict, iteration over a non-iterable).  `validationError`
(rest-framework `ValidationError`) is included because the docstring of
`DiscoveryProgram.get` names it; the code paths below show it is never
raised. -/
inductive PyErr where
  | http404 : PyErr
  | httpError (code : Nat) : PyErr
  | attributeError : PyErr
  | typeError : PyErr
  | validationError : PyErr
  deriving DecidableEq, Repr

/-- Lookup in a Python dict modelled as an association list, with default:
`kvs.get(k, d)`. -/
def objGet (kvs : List (String × Json)) (k : String) (d : Json) : Json :=
  match kvs.find? (fun kv => kv.1 == k) with
  | some kv => kv.2
  | none => d

/-- Python `x.get(k, d)` on an arbitrary value: succeeds on a dict,
raises `AttributeError` otherwise. -/
def getattrGet (j : Json) (k : String) (d : Json) : Except PyErr Json :=
  match j with
  | .obj kvs => .ok (objGet kvs k d)
  | _ => .error .attributeError

/-- Python iteration `for x in j`: lists yield their elements, dicts their
keys, strings their characters (as 1-character strings); `None`, booleans
and numbers raise `TypeError`. -/
def iterElems (j : Json) : Except PyErr (List Json) :=
  match j with
  | .arr xs => .ok xs
  | .obj kvs => .ok (kvs.map (fun kv => Json.str kv.1))
  | .str s => .ok (s.toList.map (fun c => Json.str (String.mk [c])))
  | _ => .error .typeError

/-- Python truthiness of a value. -/
def truthy (j : Json) : Bool :=
  match j with
  | .null => false
  | .bool b => b
  | .num n => n != 0
  | .str s => s != ""
  | .arr xs => !xs.isEmpty
  | .obj kvs => !kvs.isEmpty

/-- Embedding of `DiscoveryCourseRun = namedtuple('DiscoveryCourseRun',
['key', 'external_key', 'title', 'marketing_url'])`.  The fields hold
whatever Python values the payload supplied (`.get` defaults to `None`,
i.e. `Json.null`). -/
structure DiscoveryCourseRun where
  key : Json
  external_key : Json
  title : Json
  marketing_url : Json

/-- Embedding of `class DiscoveryProgram`: the record built by `from_json` via keyword
arguments.  The wall-clock `loaded` attribute (`datetime.now()`) is not
modelled; no claim mentions it. -/
structure DiscoveryProgram where
  version : Nat
  uuid : String
  title : Json
  url : Json
  active_curriculum_uuid : Json
  course_runs : List DiscoveryCourseRun

/-- Value of `DiscoveryProgram.class_version` in the source. -/
def class_version : Nat := 1

/-- Embedding of `next(c for c in curricula if c.get('is_active'))`, returning `none`
for `StopIteration`: scan in order, stop at the first element whose
`is_active` is truthy; elements after it are never touched. -/
def findActiveCurriculum : List Json → Except PyErr (Option Json)
  | [] => .ok none
  | c :: rest => do
      let v ← getattrGet c "is_active" .null
      if truthy v then pure (some c) else findActiveCurriculum rest

/-- One `DiscoveryCourseRun(key=course_run.get('key'), ...)` construction
from the comprehension in `from_json`. -/
def mkCourseRun (cr : Json) : Except PyErr DiscoveryCourseRun := do
  let key ← getattrGet cr "key" .null
  let external_key ← getattrGet cr "external_key" .null
  let title ← getattrGet cr "title" .null
  let marketing_url ← getattrGet cr "marketing_url" .null
  pure ⟨key, external_key, title, marketing_url⟩

/-- The inner loop `for course_run in course.get("course_runs", [])` of the
comprehension. -/
def runsOfCourse (course : Json) : Except PyErr (List DiscoveryCourseRun) := do
  let raw ← getattrGet course "course_runs" (.arr [])
  let crs ← iterElems raw
  crs.mapM mkCourseRun

/-- Tail of `from_json` once the active curriculum has been chosen:
`active_curriculum_uuid = curriculum.get("uuid")` followed by the
course-run comprehension and the final `DiscoveryProgram(...)`
construction. -/
def fromActiveCurriculum (ver : Nat) (program_uuid : String)
    (program_title program_url curriculum : Json) :
    Except PyErr DiscoveryProgram := do
  let active_curriculum_uuid ← getattrGet curriculum "uuid" .null
  let coursesRaw ← getattrGet curriculum "courses" (.arr [])
  let courses ← iterElems coursesRaw
  let runLists ← courses.mapM runsOfCourse
  pure ⟨ver, program_uuid, program_title, program_url,
        active_curriculum_uuid, runLists.flatten⟩

/-- Continuation of `from_json` on the outcome of the `next(...)` search:
the `except StopIteration` branch builds the degraded record
(`active_curriculum_uuid=None, course_runs=[]`), the normal branch
proceeds with the found curriculum. -/
def afterActiveSearch (ver : Nat) (program_uuid : String)
    (program_title program_url : Json) (found : Option Json) :
    Except PyErr DiscoveryProgram :=
  match found with
  | none =>
      pure ⟨ver, program_uuid, program_title, program_url, .null, []⟩
  | some curriculum =>
      fromActiveCurriculum ver program_uuid program_title program_url curriculum

/-- Embedding of `DiscoveryProgram.from_json(program_uuid, program_data)`, with the
class version as an explicit parameter (the source reads
`cls.class_version`).  The body is split across `afterActiveSearch` and
`fromActiveCurriculum` above, which mirror its two halves verbatim. -/
def from_json (ver : Nat) (program_uuid : String) (program_data : Json) :
    Except PyErr DiscoveryProgram := do
  let program_title ← getattrGet program_data "title" .null
  let program_url ← getattrGet program_data "marketing_url" .null
  let curriculaRaw ← getattrGet program_data "curricula" (.arr [])
  let curricula ← iterElems curriculaRaw
  let found ← findActiveCurriculum curricula
  afterActiveSearch ver program_uuid program_title program_url found

/-- The `DiscoveryCourseRun` built from a course-run dict: what
`mkCourseRun` returns on `Json.obj kvs`. -/
def runOfObj (kvs : List (String × Json)) : DiscoveryCourseRun :=
  ⟨objGet kvs "key" .null, objGet kvs "external_key" .null,
   objGet kvs "title" .null, objGet kvs "marketing_url" .null⟩

/-- Python `course_id == j` where `course_id` is a string: true exactly on
an equal string (`str.__eq__` with a non-string is `False`). -/
def strEqPy (s : String) (j : Json) : Bool :=
  match j with
  | .str t => s == t
  | _ => false

/-- The loop condition of `find_course_run`:
`course_id == course_run.key or course_id == course_run.external_key`. -/
def runMatches (course_id : String) (cr : DiscoveryCourseRun) : Bool :=
  strEqPy course_id cr.key || strEqPy course_id cr.external_key

/-- Embedding of `DiscoveryProgram.find_course_run(course_id)`: first course run whose
`key` or `external_key` equals `course_id`; `None` when there is none. -/
def find_course_run (p : DiscoveryProgram) (course_id : String) :
    Option DiscoveryCourseRun :=
  p.course_runs.find? (runMatches course_id)

/-- Embedding of `DiscoveryProgram.get_external_course_key(course_id)`.  The namedtuple
returned by `find_course_run` has four fields, so `if course_run:` is
exactly a not-`None` test; the not-found path returns `None`
(`Json.null`). -/
def get_external_course_key (p : DiscoveryProgram) (course_id : String) : Json :=
  match find_course_run p course_id with
  | some cr => cr.external_key
  | none => .null

/-- Embedding of `DiscoveryProgram.get_course_key(course_id)`. -/
def get_course_key (p : DiscoveryProgram) (course_id : String) : Json :=
  match find_course_run p course_id with
  | some cr => cr.key
  | none => .null

/-- Modelled from the spec: `PROGRAM_CACHE_KEY_TPL` lives in
`registrar/apps/common/constants.py`, which is not in the sources; the
spec says the cache key is "a namespaced template over the program UUID". -/
def programCacheKey (uuid : String) : String := "program:" ++ uuid

/-- Modelled from the spec: `PROGRAM_CACHE_TIMEOUT` (constants module not
in the sources); the spec only requires "a long, fixed time-to-live". -/
def PROGRAM_CACHE_TIMEOUT : Nat := 60 * 60 * 24

/-- An entry of the Django cache backing store: the stored
`DiscoveryProgram` together with the TTL it was stored with. -/
structure CacheEntry where
  program : DiscoveryProgram
  ttl : Nat

/-- The cache backing store, a key/value map.  `none` covers both a key
never written and a key whose TTL has expired (expiry simply makes the
entry absent at the next read). -/
def Store : Type := String → Option CacheEntry

/-- Django `cache.set(key, program, timeout)`. -/
def Store.set (s : Store) (k : String) (p : DiscoveryProgram) (ttl : Nat) :
    Store :=
  fun k' => if k' = k then some ⟨p, ttl⟩ else s k'

/-- Django `cache.delete(key)`. -/
def Store.delete (s : Store) (k : String) : Store :=
  fun k' => if k' = k then none else s k'

/-- The remote Discovery service behind `_make_request('GET', url, client)
.json()`: either the decoded JSON document, or an `HTTPError` carrying the
response status code. -/
def FetchResult : Type := Except Nat Json

/-- Embedding of `DiscoveryProgram.read_from_discovery(program_uuid, client)`: performs
the fetch; a 404 `HTTPError` becomes `Http404`, any other `HTTPError` is
re-raised. -/
def read_from_discovery (fetch : String → FetchResult) (program_uuid : String) :
    Except PyErr Json :=
  match fetch program_uuid with
  | .ok j => .ok j
  | .error code => if code = 404 then .error .http404 else .error (.httpError code)

/-- Embedding of `DiscoveryProgram.load_from_discovery(program_uuid, client)`: fetch
then parse. -/
def load_from_discovery (ver : Nat) (fetch : String → FetchResult)
    (program_uuid : String) : Except PyErr DiscoveryProgram := do
  let program_data ← read_from_discovery fetch program_uuid
  from_json ver program_uuid program_data

/-- What one call to `DiscoveryProgram.get` produces: the returned value
(or the exception), the cache store after the call, and how many times the
Discovery service was queried during the call. -/
structure GetResult where
  result : Except PyErr DiscoveryProgram
  store : Store
  fetchCount : Nat

/-- The miss path of `DiscoveryProgram.get`: `load_from_discovery` then
`cache.set(key, program, PROGRAM_CACHE_TIMEOUT)`; an exception propagates
before the `cache.set` line runs. -/
def getMiss (ver : Nat) (fetch : String → FetchResult) (program_uuid : String)
    (s : Store) : GetResult :=
  match load_from_discovery ver fetch program_uuid with
  | .ok p => ⟨.ok p, s.set (programCacheKey program_uuid) p PROGRAM_CACHE_TIMEOUT, 1⟩
  | .error e => ⟨.error e, s, 1⟩

/-- Embedding of `DiscoveryProgram.get(program_uuid, client)`: `program = cache.get(key)`;
`if not (program and program.version == cls.class_version)` reload from
Discovery and store; a cached `DiscoveryProgram` object is always truthy. -/
def DiscoveryProgram.get (ver : Nat) (fetch : String → FetchResult)
    (program_uuid : String) (s : Store) : GetResult :=
  match s (programCacheKey program_uuid) with
  | some entry =>
      if entry.program.version = ver then ⟨.ok entry.program, s, 0⟩
      else getMiss ver fetch program_uuid s
  | none => getMiss ver fetch program_uuid s

/-- The cache-hit test of `DiscoveryProgram.get`, i.e. the truth value of
`program and program.version == cls.class_version` on the cached lookup. -/
def hitOn (ver : Nat) (s : Store) (program_uuid : String) : Bool :=
  match s (programCacheKey program_uuid) with
  | some entry => entry.program.version == ver
  | none => false

/-- Modelled from the spec: `Invalidate(program_uuid)` — the spec's
explicit cache invalidation entry point ("explicitly removes an entry
ahead of TTL expiry"); no implementation is under the sources, only
`DiscoveryProgram.get` is.  It deletes the program's key from the backing
store. -/
def invalidate (s : Store) (program_uuid : String) : Store :=
  s.delete (programCacheKey program_uuid)

/-- The API permission kinds named by the spec's data model. -/
inductive PermissionKind where
  | READ_METADATA : PermissionKind
  | READ_ENROLLMENTS : PermissionKind
  | WRITE_ENROLLMENTS : PermissionKind
  | READ_REPORTS : PermissionKind
  deriving DecidableEq

/-- Classification `IsEnrollmentScoped`: true exactly for the two enrollment permission
kinds. -/
def isEnrollmentScoped (k : PermissionKind) : Bool :=
  match k with
  | .READ_ENROLLMENTS => true
  | .WRITE_ENROLLMENTS => true
  | _ => false

/-- Modelled from the spec: `get_effective_user_program_api_permissions`
(the spec's `EffectivePermissionResolver.Resolve`) lives in
`registrar/apps/core/utils.py`, which is not in the sources — only its
tests are.  Per §4.3: `raw` is the union of the user's global,
organization-scoped and program-direct permissions; if the cached
metadata's `program_type` is not `"Masters"`, every enrollment-scoped kind
is removed from `raw`; otherwise `raw` is returned unchanged. -/
def effectiveResolve (globalPerms orgPerms programPerms : Finset PermissionKind)
    (program_type : String) : Finset PermissionKind :=
  let raw := globalPerms ∪ orgPerms ∪ programPerms
  if program_type = "Masters" then raw
  else raw.filter (fun k => isEnrollmentScoped k = false)

/-! ### Basic reduction lemmas -/

/-- Bind on a successful `Except` computation. -/
theorem ok_bind {α β : Type} (a : α) (f : α → Except PyErr β) :
    (Except.ok a >>= f) = f a := rfl

/-- Reduction of `getattrGet` on a dict. -/
theorem getattrGet_obj (kvs : List (String × Json)) (k : String) (d : Json) :
    getattrGet (Json.obj kvs) k d = .ok (objGet kvs k d) := rfl

/-- Reduction of `iterElems` on a list. -/
theorem iterElems_arr (xs : List Json) : iterElems (Json.arr xs) = .ok xs := rfl

/-- Reduction of `afterActiveSearch` on the `StopIteration` outcome. -/
theorem afterActiveSearch_none (ver : Nat) (uuid : String) (t u : Json) :
    afterActiveSearch ver uuid t u none =
      pure ⟨ver, uuid, t, u, .null, []⟩ := rfl

/-- Reduction of `afterActiveSearch` on a found curriculum. -/
theorem afterActiveSearch_some (ver : Nat) (uuid : String) (t u c : Json) :
    afterActiveSearch ver uuid t u (some c) =
      fromActiveCurriculum ver uuid t u c := rfl

/-- Unfolding of `from_json` on a dict payload: the three top-level
`program_data.get` reads succeed and the computation continues with the
curricula scan. -/
theorem from_json_obj (ver : Nat) (uuid : String) (kvs : List (String × Json)) :
    from_json ver uuid (Json.obj kvs) =
      (iterElems (objGet kvs "curricula" (Json.arr [])) >>= fun curricula =>
        findActiveCurriculum curricula >>= fun found =>
          afterActiveSearch ver uuid (objGet kvs "title" Json.null)
            (objGet kvs "marketing_url" Json.null) found) := rfl

/-! ### Error classification: the parser only raises shape errors -/

/-- Property of an embedded computation: every error it can produce is a
Python shape error (`AttributeError` or `TypeError`). -/
def onlyShapeErr {α : Type} (m : Except PyErr α) : Prop :=
  ∀ e, m = .error e → e = PyErr.attributeError ∨ e = PyErr.typeError

theorem onlyShapeErr_ok {α : Type} (a : α) : onlyShapeErr (Except.ok a) :=
  fun _ he => Except.noConfusion he

theorem onlyShapeErr_pure {α : Type} (a : α) :
    onlyShapeErr (pure a : Except PyErr α) := onlyShapeErr_ok a

theorem onlyShapeErr_bind {α β : Type} {m : Except PyErr α}
    {f : α → Except PyErr β} (hm : onlyShapeErr m)
    (hf : ∀ a, onlyShapeErr (f a)) : onlyShapeErr (m >>= f) := by
  intro e he
  cases m with
  | error e2 =>
      have he2 : (Except.error e2 : Except PyErr β) = Except.error e := he
      injection he2 with h
      subst h
      exact hm e2 rfl
  | ok a => exact hf a e he

theorem onlyShapeErr_getattrGet (j : Json) (k : String) (d : Json) :
    onlyShapeErr (getattrGet j k d) := by
  cases j <;> intro e he <;> first
    | exact Except.noConfusion he
    | (injection he with h; exact Or.inl h.symm)

theorem onlyShapeErr_iterElems (j : Json) : onlyShapeErr (iterElems j) := by
  cases j <;> intro e he <;> first
    | exact Except.noConfusion he
    | (injection he with h; exact Or.inr h.symm)

theorem onlyShapeErr_mkCourseRun (cr : Json) : onlyShapeErr (mkCourseRun cr) := by
  unfold mkCourseRun
  refine onlyShapeErr_bind (onlyShapeErr_getattrGet _ _ _) fun a => ?_
  refine onlyShapeErr_bind (onlyShapeErr_getattrGet _ _ _) fun b => ?_
  refine onlyShapeErr_bind (onlyShapeErr_getattrGet _ _ _) fun c => ?_
  refine onlyShapeErr_bind (onlyShapeErr_getattrGet _ _ _) fun d2 => ?_
  exact onlyShapeErr_pure _

theorem onlyShapeErr_mapM {α β : Type} (f : α → Except PyErr β)
    (l : List α) (h : ∀ a ∈ l, onlyShapeErr (f a)) : onlyShapeErr (l.mapM f) := by
  induction l with
  | nil => exact onlyShapeErr_pure _
  | cons a as ih =>
      rw [List.mapM_cons]
      exact onlyShapeErr_bind (h a (List.mem_cons_self a as)) fun b =>
        onlyShapeErr_bind (ih fun x hx => h x (List.mem_cons_of_mem a hx))
          fun bs => onlyShapeErr_pure _

theorem onlyShapeErr_runsOfCourse (course : Json) :
    onlyShapeErr (runsOfCourse course) := by
  unfold runsOfCourse
  refine onlyShapeErr_bind (onlyShapeErr_getattrGet _ _ _) fun raw => ?_
  refine onlyShapeErr_bind (onlyShapeErr_iterElems _) fun crs => ?_
  exact onlyShapeErr_mapM _ _ fun a _ => onlyShapeErr_mkCourseRun a

theorem onlyShapeErr_findActiveCurriculum (l : List Json) :
    onlyShapeErr (findActiveCurriculum l) := by
  induction l with
  | nil => exact onlyShapeErr_ok _
  | cons c rest ih =>
      show onlyShapeErr (getattrGet c "is_active" .null >>= fun v =>
        if truthy v then pure (some c) else findActiveCurriculum rest)
      refine onlyShapeErr_bind (onlyShapeErr_getattrGet _ _ _) fun v => ?_
      cases hv : truthy v
      · rw [if_neg (by simp [hv])]
        exact ih
      · rw [if_pos (by simp [hv])]
        exact onlyShapeErr_pure _

theorem onlyShapeErr_fromActiveCurriculum (ver : Nat) (uuid : String)
    (t u c : Json) : onlyShapeErr (fromActiveCurriculum ver uuid t u c) := by
  unfold fromActiveCurriculum
  refine onlyShapeErr_bind (onlyShapeErr_getattrGet _ _ _) fun a => ?_
  refine onlyShapeErr_bind (onlyShapeErr_getattrGet _ _ _) fun b => ?_
  refine onlyShapeErr_bind (onlyShapeErr_iterElems _) fun courses => ?_
  refine onlyShapeErr_bind
    (onlyShapeErr_mapM _ _ fun a _ => onlyShapeErr_runsOfCourse a) fun rl => ?_
  exact onlyShapeErr_pure _

theorem onlyShapeErr_from_json (ver : Nat) (uuid : String) (pd : Json) :
    onlyShapeErr (from_json ver uuid pd) := by
  unfold from_json
  refine onlyShapeErr_bind (onlyShapeErr_getattrGet _ _ _) fun t => ?_
  refine onlyShapeErr_bind (onlyShapeErr_getattrGet _ _ _) fun u => ?_
  refine onlyShapeErr_bind (onlyShapeErr_getattrGet _ _ _) fun cr => ?_
  refine onlyShapeErr_bind (onlyShapeErr_iterElems _) fun cs => ?_
  refine onlyShapeErr_bind (onlyShapeErr_findActiveCurriculum _) fun found => ?_
  cases found with
  | none => exact onlyShapeErr_pure _
  | some c => exact onlyShapeErr_fromActiveCurriculum ver uuid t u c

/-! ### The version invariant of parsed records -/

/-- Property of an embedded computation producing a `DiscoveryProgram`:
every successful result carries the given version tag. -/
def versionIs (ver : Nat) (m : Except PyErr DiscoveryProgram) : Prop :=
  ∀ p, m = .ok p → p.version = ver

theorem versionIs_bind {α : Type} (ver : Nat) {m : Except PyErr α}
    {f : α → Except PyErr DiscoveryProgram}
    (hf : ∀ a, versionIs ver (f a)) : versionIs ver (m >>= f) := by
  intro p hp
  cases m with
  | error e =>
      exact Except.noConfusion
        (show (Except.error e : Except PyErr DiscoveryProgram) = .ok p from hp)
  | ok a => exact hf a p hp

theorem versionIs_pure (ver : Nat) (p : DiscoveryProgram)
    (h : p.version = ver) :
    versionIs ver (pure p : Except PyErr DiscoveryProgram) := by
  intro q hq
  have hq2 : (Except.ok p : Except PyErr DiscoveryProgram) = .ok q := hq
  injection hq2 with h2
  rw [← h2]
  exact h

theorem fromActiveCurriculum_version (ver : Nat) (uuid : String)
    (t u c : Json) : versionIs ver (fromActiveCurriculum ver uuid t u c) := by
  unfold fromActiveCurriculum
  refine versionIs_bind ver fun a => versionIs_bind ver fun b =>
    versionIs_bind ver fun courses => versionIs_bind ver fun rl => ?_
  exact versionIs_pure ver _ rfl

/-- Both exits of `from_json` tag the record with the class version the
parser was invoked with. -/
theorem from_json_version (ver : Nat) (uuid : String) (pd : Json) :
    versionIs ver (from_json ver uuid pd) := by
  unfold from_json
  refine versionIs_bind ver fun t => versionIs_bind ver fun u =>
    versionIs_bind ver fun cr => versionIs_bind ver fun cs =>
    versionIs_bind ver fun found => ?_
  cases found with
  | none => exact versionIs_pure ver _ rfl
  | some c => exact fromActiveCurriculum_version ver uuid t u c

theorem load_version (ver : Nat) (fetch : String → FetchResult)
    (uuid : String) : versionIs ver (load_from_discovery ver fetch uuid) := by
  unfold load_from_discovery
  exact versionIs_bind ver fun pd => from_json_version ver uuid pd

/-! ### Parser success-path helpers -/

/-- The curricula scan reaches `StopIteration` when every entry is a dict
with a non-truthy `is_active`. -/
theorem findActive_none (curr : List Json)
    (h : ∀ c ∈ curr, ∃ ckvs, c = Json.obj ckvs ∧
      truthy (objGet ckvs "is_active" Json.null) = false) :
    findActiveCurriculum curr = .ok none := by
  induction curr with
  | nil => rfl
  | cons c rest ih =>
      obtain ⟨ckvs, hc, hfalse⟩ := h c (List.mem_cons_self c rest)
      subst hc
      show (if truthy (objGet ckvs "is_active" Json.null) then
          (pure (some (Json.obj ckvs)) : Except PyErr (Option Json))
        else findActiveCurriculum rest) = .ok none
      rw [hfalse]
      exact ih fun x hx => h x (List.mem_cons_of_mem _ hx)

/-- The curricula scan returns the first entry whose `is_active` is
truthy; entries after it are never inspected. -/
theorem findActive_first (pre : List (List (String × Json)))
    (ckvs : List (String × Json)) (rest : List Json)
    (hpre : ∀ p ∈ pre, truthy (objGet p "is_active" Json.null) = false)
    (hact : truthy (objGet ckvs "is_active" Json.null) = true) :
    findActiveCurriculum (pre.map Json.obj ++ Json.obj ckvs :: rest) =
      .ok (some (Json.obj ckvs)) := by
  induction pre with
  | nil =>
      show (if truthy (objGet ckvs "is_active" Json.null) then
          (pure (some (Json.obj ckvs)) : Except PyErr (Option Json))
        else findActiveCurriculum rest) = _
      rw [hact]
      rfl
  | cons p ps ih =>
      show (if truthy (objGet p "is_active" Json.null) then
          (pure (some (Json.obj p)) : Except PyErr (Option Json))
        else findActiveCurriculum (ps.map Json.obj ++ Json.obj ckvs :: rest)) = _
      rw [hpre p (List.mem_cons_self p ps)]
      exact ih fun q hq => hpre q (List.mem_cons_of_mem _ hq)

/-- The comprehension body maps each course-run dict to its record. -/
theorem mapM_mkCourseRun (runs : List (List (String × Json))) :
    (runs.map Json.obj).mapM mkCourseRun = .ok (runs.map runOfObj) := by
  induction runs with
  | nil => rfl
  | cons r rs ih =>
      simp only [List.map_cons, List.mapM_cons, ih]
      rfl

/-- The outer comprehension loop maps each course dict to the list of its
course-run records, in order. -/
theorem mapM_runsOfCourse
    (cds : List (List (String × Json) × List (List (String × Json))))
    (h : ∀ cd ∈ cds, objGet cd.1 "course_runs" (Json.arr []) =
      Json.arr (cd.2.map Json.obj)) :
    (cds.map fun cd => Json.obj cd.1).mapM runsOfCourse =
      .ok (cds.map fun cd => cd.2.map runOfObj) := by
  induction cds with
  | nil => rfl
  | cons cd rest ih =>
      have h1 : runsOfCourse (Json.obj cd.1) = .ok (cd.2.map runOfObj) := by
        show (iterElems (objGet cd.1 "course_runs" (Json.arr [])) >>=
          fun crs => crs.mapM mkCourseRun) = _
        rw [h cd (List.mem_cons_self cd rest)]
        exact mapM_mkCourseRun cd.2
      simp only [List.map_cons, List.mapM_cons, h1,
        ih fun x hx => h x (List.mem_cons_of_mem cd hx)]
      rfl

/-! ### Cache-layer helpers -/

/-- Reading back the key just written. -/
theorem store_set_self (s : Store) (k : String) (p : DiscoveryProgram)
    (ttl : Nat) : (s.set k p ttl) k = some ⟨p, ttl⟩ := by
  unfold Store.set
  simp

/-- A `get` whose cache lookup hits (entry present, version current)
returns the entry unchanged, leaves the store alone and never reaches the
fetcher. -/
theorem get_eq_hit (ver : Nat) (fetch : String → FetchResult)
    (uuid : String) (s : Store) (entry : CacheEntry)
    (hs : s (programCacheKey uuid) = some entry)
    (hv : entry.program.version = ver) :
    DiscoveryProgram.get ver fetch uuid s = ⟨.ok entry.program, s, 0⟩ := by
  unfold DiscoveryProgram.get
  rw [hs]
  show (if entry.program.version = ver then
      (⟨Except.ok entry.program, s, 0⟩ : GetResult)
    else getMiss ver fetch uuid s) = _
  rw [if_pos hv]

/-- A `get` whose cache lookup misses (entry absent or version stale)
runs the miss path. -/
theorem get_eq_miss (ver : Nat) (fetch : String → FetchResult)
    (uuid : String) (s : Store) (h : hitOn ver s uuid = false) :
    DiscoveryProgram.get ver fetch uuid s = getMiss ver fetch uuid s := by
  unfold hitOn at h
  unfold DiscoveryProgram.get
  cases hs : s (programCacheKey uuid) with
  | none => rfl
  | some entry =>
      rw [hs] at h
      have h2 : (entry.program.version == ver) = false := h
      have h3 : ¬ entry.program.version = ver := by simpa using h2
      show (if entry.program.version = ver then
          (⟨Except.ok entry.program, s, 0⟩ : GetResult)
        else getMiss ver fetch uuid s) = _
      rw [if_neg h3]

/-- Successful miss path: store the freshly parsed record under the key
with the fixed TTL. -/
theorem getMiss_ok (ver : Nat) (fetch : String → FetchResult)
    (uuid : String) (s : Store) (p : DiscoveryProgram)
    (h : load_from_discovery ver fetch uuid = .ok p) :
    getMiss ver fetch uuid s =
      ⟨.ok p, s.set (programCacheKey uuid) p PROGRAM_CACHE_TIMEOUT, 1⟩ := by
  unfold getMiss
  rw [h]

/-- Failed miss path: the exception propagates before `cache.set` runs,
so the store is untouched. -/
theorem getMiss_err (ver : Nat) (fetch : String → FetchResult)
    (uuid : String) (s : Store) (e : PyErr)
    (h : load_from_discovery ver fetch uuid = .error e) :
    getMiss ver fetch uuid s = ⟨.error e, s, 1⟩ := by
  unfold getMiss
  rw [h]

/-- The miss path queries Discovery exactly once, whether it succeeds or
fails. -/
theorem getMiss_fetchCount (ver : Nat) (fetch : String → FetchResult)
    (uuid : String) (s : Store) : (getMiss ver fetch uuid s).fetchCount = 1 := by
  unfold getMiss
  cases h : load_from_discovery ver fetch uuid <;> rfl

/-- Result of `load_from_discovery` when the remote call fails. -/
theorem load_of_fetch_err (ver : Nat) (fetch : String → FetchResult)
    (uuid : String) (c : Nat) (hf : fetch uuid = .error c) :
    load_from_discovery ver fetch uuid =
      .error (if c = 404 then PyErr.http404 else PyErr.httpError c) := by
  unfold load_from_discovery read_from_discovery
  rw [hf]
  show ((if c = 404 then (Except.error PyErr.http404 : Except PyErr Json)
      else .error (.httpError c)) >>= fun pd => from_json ver uuid pd) = _
  by_cases h4 : c = 404
  · rw [if_pos h4, if_pos h4]
    rfl
  · rw [if_neg h4, if_neg h4]
    rfl

/-- Result of `load_from_discovery` when the remote call succeeds: it is
the parse of the returned document. -/
theorem load_of_fetch_ok (ver : Nat) (fetch : String → FetchResult)
    (uuid : String) (j : Json) (hf : fetch uuid = .ok j) :
    load_from_discovery ver fetch uuid = from_json ver uuid j := by
  unfold load_from_discovery read_from_discovery
  rw [hf]
  rfl

/-- After a `get` that returned a program, an immediate second `get` is a
cache hit: same program, same store, no fetch. -/
theorem get_after_ok (ver : Nat) (fetch : String → FetchResult)
    (uuid : String) (s : Store) (p : DiscoveryProgram)
    (h : (DiscoveryProgram.get ver fetch uuid s).result = .ok p) :
    DiscoveryProgram.get ver fetch uuid
        ((DiscoveryProgram.get ver fetch uuid s).store) =
      ⟨.ok p, (DiscoveryProgram.get ver fetch uuid s).store, 0⟩ := by
  cases hh : hitOn ver s uuid with
  | true =>
      unfold hitOn at hh
      cases hs : s (programCacheKey uuid) with
      | none => rw [hs] at hh; cases hh
      | some entry =>
          rw [hs] at hh
          have hv : entry.program.version = ver := by
            simpa using (show (entry.program.version == ver) = true from hh)
          have hg := get_eq_hit ver fetch uuid s entry hs hv
          rw [hg] at h ⊢
          have h2 : entry.program = p := by
            have h3 : (Except.ok entry.program : Except PyErr DiscoveryProgram)
              = .ok p := h
            injection h3
          rw [show (⟨Except.ok entry.program, s, 0⟩ : GetResult).store = s
            from rfl]
          rw [← h2]
          exact get_eq_hit ver fetch uuid s entry hs hv
  | false =>
      have hg := get_eq_miss ver fetch uuid s hh
      rw [hg] at h ⊢
      cases hl : load_from_discovery ver fetch uuid with
      | error e =>
          rw [getMiss_err ver fetch uuid s e hl] at h
          exact absurd (show (Except.error e : Except PyErr DiscoveryProgram)
            = .ok p from h) (by simp)
      | ok q =>
          rw [getMiss_ok ver fetch uuid s q hl] at h ⊢
          have h2 : q = p := by
            have h3 : (Except.ok q : Except PyErr DiscoveryProgram) = .ok p := h
            injection h3
          subst h2
          have hv : q.version = ver := load_version ver fetch uuid q hl
          exact get_eq_hit ver fetch uuid
            (Store.set s (programCacheKey uuid) q PROGRAM_CACHE_TIMEOUT)
            ⟨q, PROGRAM_CACHE_TIMEOUT⟩
            (store_set_self s (programCacheKey uuid) q PROGRAM_CACHE_TIMEOUT)
            hv

/-! ### Concrete values used by witnesses and counterexamples -/

/-- A first-match helper about `List.find?`. -/
theorem find?_first {α : Type} (f : α → Bool) (l1 : List α) (a : α)
    (l2 : List α) (h1 : ∀ x ∈ l1, f x = false) (ha : f a = true) :
    (l1 ++ a :: l2).find? f = some a := by
  induction l1 with
  | nil => simp [List.find?_cons, ha]
  | cons b bs ih =>
      have hb : f b = false := h1 b (List.mem_cons_self b bs)
      rw [List.cons_append, List.find?_cons_of_neg _ (by simp [hb])]
      exact ih fun x hx => h1 x (List.mem_cons_of_mem b hx)

/-- A store with no entries. -/
def emptyStore : Store := fun _ => none

/-- A fetcher whose remote always answers 404. -/
def fetch404 : String → FetchResult := fun _ => .error 404

/-- A parsed record with the current class version. -/
def progEx : DiscoveryProgram := ⟨1, "u", .null, .null, .null, []⟩

/-- A store holding `progEx` under program uuid `"u"`. -/
def storeEx : Store :=
  fun k => if k = programCacheKey "u" then some ⟨progEx, 77⟩ else none

/-- A course run with key `"a"` and a null `external_key`. -/
def runA : DiscoveryCourseRun := ⟨Json.str "a", Json.null, Json.null, Json.null⟩

/-- A course run with key `"b"` and external key `"x"`. -/
def runB : DiscoveryCourseRun := ⟨Json.str "b", Json.str "x", Json.null, Json.null⟩

/-- A record holding `runA` and `runB`. -/
def progRuns : DiscoveryProgram :=
  ⟨1, "u", Json.null, Json.null, Json.null, [runA, runB]⟩

/-- A record whose only course run has a null `external_key`. -/
def progNullExt : DiscoveryProgram :=
  ⟨1, "u", Json.null, Json.null, Json.null, [runA]⟩

/-- An inactive curriculum dict. -/
def c0kvs : List (String × Json) :=
  [("uuid", Json.str "c0"), ("is_active", Json.bool false)]

/-- Fields of the first course-run dict. -/
def run1kvs : List (String × Json) :=
  [("key", Json.str "r1"), ("external_key", Json.str "x1")]

/-- Fields of the second course-run dict. -/
def run2kvs : List (String × Json) := [("key", Json.str "r2")]

/-- Fields of the third course-run dict. -/
def run3kvs : List (String × Json) := [("key", Json.str "r3")]

/-- A course dict with one course run. -/
def course1kvs : List (String × Json) :=
  [("course_runs", Json.arr [Json.obj run1kvs])]

/-- A course dict with two course runs. -/
def course2kvs : List (String × Json) :=
  [("course_runs", Json.arr [Json.obj run2kvs, Json.obj run3kvs])]

/-- The active curriculum dict: two courses with one and two runs. -/
def c1kvs : List (String × Json) :=
  [("uuid", Json.str "c1"), ("is_active", Json.bool true),
   ("courses", Json.arr [Json.obj course1kvs, Json.obj course2kvs])]

/-- A payload with one inactive and one active curriculum, the active one
holding two courses with one and two course runs. -/
def payloadC7 : Json := Json.obj
  [("title", Json.str "T"), ("marketing_url", Json.str "M"),
   ("curricula", Json.arr [Json.obj c0kvs, Json.obj c1kvs])]

/-- Structured view of the active curriculum's courses in `payloadC7`. -/
def courseDataC7 :
    List (List (String × Json) × List (List (String × Json))) :=
  [(course1kvs, [run1kvs]), (course2kvs, [run2kvs, run3kvs])]

/-! ### Claims -/

/-- C1: the eligibility filter of `EffectivePermissionResolver.Resolve`.
For a `"Masters"` program the raw union of global, organization-scoped and
program-direct permissions survives unchanged (in particular every
enrollment-scoped kind present in it); for any other program type,
`READ_ENROLLMENTS` and `WRITE_ENROLLMENTS` are absent from the result
regardless of what was granted, while non-enrollment kinds pass through. -/
theorem claim_C1 (globalPerms orgPerms programPerms : Finset PermissionKind)
    (program_type : String) :
    (program_type = "Masters" →
      effectiveResolve globalPerms orgPerms programPerms program_type =
        globalPerms ∪ orgPerms ∪ programPerms) ∧
    (program_type ≠ "Masters" →
      PermissionKind.READ_ENROLLMENTS ∉
        effectiveResolve globalPerms orgPerms programPerms program_type ∧
      PermissionKind.WRITE_ENROLLMENTS ∉
        effectiveResolve globalPerms orgPerms programPerms program_type ∧
      ∀ k, isEnrollmentScoped k = false →
        (k ∈ effectiveResolve globalPerms orgPerms programPerms program_type ↔
         k ∈ globalPerms ∪ orgPerms ∪ programPerms)) := by
  constructor
  · intro h
    simp only [effectiveResolve, if_pos h]
  · intro h
    simp only [effectiveResolve, if_neg h]
    refine ⟨?_, ?_, ?_⟩
    · simp [Finset.mem_filter, isEnrollmentScoped]
    · simp [Finset.mem_filter, isEnrollmentScoped]
    · intro k hk
      simp [Finset.mem_filter, hk]

/-- Witness for C1 at a concrete non-Masters program type. -/
theorem claim_C1_witness :
    PermissionKind.READ_ENROLLMENTS ∉
      effectiveResolve {PermissionKind.READ_METADATA}
        {PermissionKind.READ_ENROLLMENTS, PermissionKind.WRITE_ENROLLMENTS}
        ∅ "MicroMasters" :=
  ((claim_C1 {PermissionKind.READ_METADATA}
    {PermissionKind.READ_ENROLLMENTS, PermissionKind.WRITE_ENROLLMENTS}
    ∅ "MicroMasters").2 (by decide)).1

/-- C2: `DiscoveryProgram.get` first consults the backing store; a
present entry with the current class version is returned unchanged with
no fetch; otherwise the fetcher runs, the response is parsed, the result
is stored under the key with the fixed TTL and returned; and after any
`get` that returned a program, an immediate second `get` serves the same
program from the cache with zero fetches (so two gets within TTL query
Discovery at most once). -/
theorem claim_C2 (ver : Nat) (fetch : String → FetchResult) (uuid : String)
    (s : Store) :
    (∀ entry, s (programCacheKey uuid) = some entry →
      entry.program.version = ver →
      DiscoveryProgram.get ver fetch uuid s = ⟨.ok entry.program, s, 0⟩) ∧
    (hitOn ver s uuid = false → ∀ p,
      load_from_discovery ver fetch uuid = .ok p →
      DiscoveryProgram.get ver fetch uuid s =
        ⟨.ok p, s.set (programCacheKey uuid) p PROGRAM_CACHE_TIMEOUT, 1⟩) ∧
    (∀ p, (DiscoveryProgram.get ver fetch uuid s).result = .ok p →
      DiscoveryProgram.get ver fetch uuid
          ((DiscoveryProgram.get ver fetch uuid s).store) =
        ⟨.ok p, (DiscoveryProgram.get ver fetch uuid s).store, 0⟩) := by
  refine ⟨fun entry hs hv => get_eq_hit ver fetch uuid s entry hs hv,
    fun hmiss p hload => ?_, fun p h => get_after_ok ver fetch uuid s p h⟩
  rw [get_eq_miss ver fetch uuid s hmiss]
  exact getMiss_ok ver fetch uuid s p hload

/-- Witness for C2: a cache hit at a concrete store. -/
theorem claim_C2_witness :
    DiscoveryProgram.get 1 fetch404 "u" storeEx = ⟨.ok progEx, storeEx, 0⟩ :=
  (claim_C2 1 fetch404 "u" storeEx).1 ⟨progEx, 77⟩ rfl rfl

/-- C3: `DiscoveryProgram.get` is atomic on failure — whenever it raises
(404 mapped to `Http404`, any other fetch failure re-raised as
`HTTPError`, or a parse failure), the error is surfaced to the caller and
the backing store is exactly what it was before the call. -/
theorem claim_C3 (ver : Nat) (fetch : String → FetchResult) (uuid : String)
    (s : Store) :
    (∀ e, (DiscoveryProgram.get ver fetch uuid s).result = .error e →
      (DiscoveryProgram.get ver fetch uuid s).store = s) ∧
    (hitOn ver s uuid = false → fetch uuid = .error 404 →
      DiscoveryProgram.get ver fetch uuid s = ⟨.error .http404, s, 1⟩) ∧
    (hitOn ver s uuid = false → ∀ c, c ≠ 404 → fetch uuid = .error c →
      DiscoveryProgram.get ver fetch uuid s = ⟨.error (.httpError c), s, 1⟩) ∧
    (hitOn ver s uuid = false → ∀ j e, fetch uuid = .ok j →
      from_json ver uuid j = .error e →
      DiscoveryProgram.get ver fetch uuid s = ⟨.error e, s, 1⟩) := by
  refine ⟨?_, ?_, ?_, ?_⟩
  · intro e h
    cases hh : hitOn ver s uuid with
    | true =>
        unfold hitOn at hh
        cases hs : s (programCacheKey uuid) with
        | none => rw [hs] at hh; cases hh
        | some entry =>
            rw [hs] at hh
            have hv : entry.program.version = ver := by
              simpa using (show (entry.program.version == ver) = true from hh)
            rw [get_eq_hit ver fetch uuid s entry hs hv] at h
            exact absurd (show (Except.ok entry.program :
              Except PyErr DiscoveryProgram) = .error e from h) (by simp)
    | false =>
        rw [get_eq_miss ver fetch uuid s hh] at h ⊢
        cases hl : load_from_discovery ver fetch uuid with
        | ok q =>
            rw [getMiss_ok ver fetch uuid s q hl] at h
            exact absurd (show (Except.ok q :
              Except PyErr DiscoveryProgram) = .error e from h) (by simp)
        | error e2 =>
            rw [getMiss_err ver fetch uuid s e2 hl]
  · intro hmiss hf
    rw [get_eq_miss ver fetch uuid s hmiss]
    have hl := load_of_fetch_err ver fetch uuid 404 hf
    rw [if_pos rfl] at hl
    exact getMiss_err ver fetch uuid s _ hl
  · intro hmiss c hc hf
    rw [get_eq_miss ver fetch uuid s hmiss]
    have hl := load_of_fetch_err ver fetch uuid c hf
    rw [if_neg hc] at hl
    exact getMiss_err ver fetch uuid s _ hl
  · intro hmiss j e hf hp
    rw [get_eq_miss ver fetch uuid s hmiss]
    have hl := (load_of_fetch_ok ver fetch uuid j hf).trans hp
    exact getMiss_err ver fetch uuid s e hl

/-- Witness for C3: a 404 from Discovery surfaces as `Http404` and leaves
the empty store untouched. -/
theorem claim_C3_witness :
    DiscoveryProgram.get 1 fetch404 "u" emptyStore =
      ⟨.error PyErr.http404, emptyStore, 1⟩ :=
  (claim_C3 1 fetch404 "u" emptyStore).2.1 rfl rfl

/-- C4: `Invalidate` removes the entry for the key ahead of TTL expiry,
and a `get` after an invalidation, or with a class version differing from
a previously stored entry's version, always queries Discovery again
rather than serving the old entry. -/
theorem claim_C4 (ver : Nat) (fetch : String → FetchResult) (uuid : String)
    (s : Store) :
    (invalidate s uuid) (programCacheKey uuid) = none ∧
    (DiscoveryProgram.get ver fetch uuid (invalidate s uuid)).fetchCount = 1 ∧
    (∀ entry ver2, s (programCacheKey uuid) = some entry →
      entry.program.version ≠ ver2 →
      (DiscoveryProgram.get ver2 fetch uuid s).fetchCount = 1) := by
  refine ⟨?_, ?_, ?_⟩
  · unfold invalidate Store.delete
    simp
  · have hmiss : hitOn ver (invalidate s uuid) uuid = false := by
      unfold hitOn invalidate Store.delete
      simp
    rw [get_eq_miss ver fetch uuid _ hmiss]
    exact getMiss_fetchCount ver fetch uuid _
  · intro entry ver2 hs hv
    have hmiss : hitOn ver2 s uuid = false := by
      unfold hitOn
      rw [hs]
      simpa using hv
    rw [get_eq_miss ver2 fetch uuid s hmiss]
    exact getMiss_fetchCount ver2 fetch uuid s

/-- Witness for C4: a stored entry with version 1 read by a parser at
version 2 forces a refetch. -/
theorem claim_C4_witness :
    (DiscoveryProgram.get 2 fetch404 "u" storeEx).fetchCount = 1 :=
  (claim_C4 2 fetch404 "u" storeEx).2.2 ⟨progEx, 77⟩ 2 rfl (by decide)

/-- C5 counterexample: the claim says a required field being missing
causes `ValidationError`, but `from_json` reads every field with
`.get(...)` and a default — parsing the empty object (every field
missing at once) succeeds with null/empty defaults instead of raising. -/
theorem claim_C5_counterexample :
    from_json class_version "p" (Json.obj []) =
      .ok ⟨class_version, "p", Json.null, Json.null, Json.null, []⟩ := rfl

/-- C5 amended: `from_json` never raises `ValidationError`: there are no
required fields — absent fields (title, marketing_url, curricula, and all
nested ones) default to null/empty, so the empty object parses
successfully — unknown extra fields are ignored, and structurally invalid
input fails with Python's `AttributeError` or `TypeError`, never
`ValidationError`. -/
theorem claim_C5_amended (ver : Nat) (uuid : String) (pd : Json) :
    from_json ver uuid pd ≠ .error PyErr.validationError ∧
    from_json ver uuid (Json.obj []) =
      .ok ⟨ver, uuid, Json.null, Json.null, Json.null, []⟩ ∧
    (∀ e, from_json ver uuid pd = .error e →
      e = PyErr.attributeError ∨ e = PyErr.typeError) := by
  refine ⟨?_, rfl, onlyShapeErr_from_json ver uuid pd⟩
  intro h
  rcases onlyShapeErr_from_json ver uuid pd _ h with h2 | h2 <;> cases h2

/-- Witness for C5: a non-dict payload fails with `AttributeError`. -/
theorem claim_C5_witness :
    PyErr.attributeError = PyErr.attributeError ∨
    PyErr.attributeError = PyErr.typeError :=
  (claim_C5_amended 1 "p" (Json.num 3)).2.2 PyErr.attributeError rfl

/-- C6: a payload whose curricula array has no entry with a truthy
`is_active` does not fail: `from_json` takes the `StopIteration` branch
and returns the record with `active_curriculum_uuid = None` and an empty
course-run list. -/
theorem claim_C6 (ver : Nat) (uuid : String) (kvs : List (String × Json))
    (curr : List Json)
    (hcur : objGet kvs "curricula" (Json.arr []) = Json.arr curr)
    (hall : ∀ c ∈ curr, ∃ ckvs, c = Json.obj ckvs ∧
      truthy (objGet ckvs "is_active" Json.null) = false) :
    from_json ver uuid (Json.obj kvs) =
      .ok ⟨ver, uuid, objGet kvs "title" Json.null,
        objGet kvs "marketing_url" Json.null, Json.null, []⟩ := by
  rw [from_json_obj, hcur]
  show (findActiveCurriculum curr >>= fun found =>
    afterActiveSearch ver uuid (objGet kvs "title" Json.null)
      (objGet kvs "marketing_url" Json.null) found) = _
  rw [findActive_none curr hall]
  rfl

/-- Witness for C6 at a payload with one inactive curriculum. -/
theorem claim_C6_witness :
    from_json 1 "p" (Json.obj [("title", Json.str "t"),
      ("curricula", Json.arr [Json.obj [("is_active", Json.bool false)]])]) =
      .ok ⟨1, "p", Json.str "t", Json.null, Json.null, []⟩ := by
  refine claim_C6 1 "p" _ _ rfl ?_
  intro c hc
  rw [List.mem_singleton] at hc
  subst hc
  exact ⟨_, rfl, rfl⟩

/-- C7: with at least one active curriculum, `from_json` selects the
first curriculum (in payload order) whose `is_active` is truthy — later
entries are never inspected — sets `active_curriculum_uuid` to its
`uuid`, and flattens the course runs of its courses in payload order
(courses in order, runs in order within each course). -/
theorem claim_C7 (ver : Nat) (uuid : String) (kvs : List (String × Json))
    (currPre : List (List (String × Json))) (ckvs : List (String × Json))
    (currRest : List Json)
    (courseData : List (List (String × Json) × List (List (String × Json))))
    (hcur : objGet kvs "curricula" (Json.arr []) =
      Json.arr (currPre.map Json.obj ++ Json.obj ckvs :: currRest))
    (hpre : ∀ p ∈ currPre, truthy (objGet p "is_active" Json.null) = false)
    (hact : truthy (objGet ckvs "is_active" Json.null) = true)
    (hcourses : objGet ckvs "courses" (Json.arr []) =
      Json.arr (courseData.map fun cd => Json.obj cd.1))
    (hruns : ∀ cd ∈ courseData, objGet cd.1 "course_runs" (Json.arr []) =
      Json.arr (cd.2.map Json.obj)) :
    from_json ver uuid (Json.obj kvs) =
      .ok ⟨ver, uuid, objGet kvs "title" Json.null,
        objGet kvs "marketing_url" Json.null, objGet ckvs "uuid" Json.null,
        (courseData.map fun cd => cd.2.map runOfObj).flatten⟩ := by
  rw [from_json_obj, hcur]
  show (findActiveCurriculum (currPre.map Json.obj ++ Json.obj ckvs :: currRest)
    >>= fun found => afterActiveSearch ver uuid (objGet kvs "title" Json.null)
      (objGet kvs "marketing_url" Json.null) found) = _
  rw [findActive_first currPre ckvs currRest hpre hact]
  show (iterElems (objGet ckvs "courses" (Json.arr [])) >>= fun courses =>
    courses.mapM runsOfCourse >>= fun runLists =>
    pure (⟨ver, uuid, objGet kvs "title" Json.null,
      objGet kvs "marketing_url" Json.null, objGet ckvs "uuid" Json.null,
      runLists.flatten⟩ : DiscoveryProgram)) =
    Except.ok ⟨ver, uuid, objGet kvs "title" Json.null,
      objGet kvs "marketing_url" Json.null, objGet ckvs "uuid" Json.null,
      (courseData.map fun cd => cd.2.map runOfObj).flatten⟩
  rw [hcourses]
  show ((courseData.map fun cd => Json.obj cd.1).mapM runsOfCourse >>=
    fun runLists => pure (⟨ver, uuid, objGet kvs "title" Json.null,
      objGet kvs "marketing_url" Json.null, objGet ckvs "uuid" Json.null,
      runLists.flatten⟩ : DiscoveryProgram)) =
    Except.ok ⟨ver, uuid, objGet kvs "title" Json.null,
      objGet kvs "marketing_url" Json.null, objGet ckvs "uuid" Json.null,
      (courseData.map fun cd => cd.2.map runOfObj).flatten⟩
  rw [mapM_runsOfCourse courseData hruns]
  rfl

/-- Witness for C7: one inactive then one active curriculum holding two
courses with one and two course runs — the flattened sequence has length
3 in source order. -/
theorem claim_C7_witness :
    from_json 1 "p" payloadC7 =
      .ok ⟨1, "p", Json.str "T", Json.str "M", Json.str "c1",
        [⟨Json.str "r1", Json.str "x1", Json.null, Json.null⟩,
         ⟨Json.str "r2", Json.null, Json.null, Json.null⟩,
         ⟨Json.str "r3", Json.null, Json.null, Json.null⟩]⟩ ∧
    ([⟨Json.str "r1", Json.str "x1", Json.null, Json.null⟩,
      ⟨Json.str "r2", Json.null, Json.null, Json.null⟩,
      ⟨Json.str "r3", Json.null, Json.null, Json.null⟩] :
        List DiscoveryCourseRun).length = 3 := by
  constructor
  · refine claim_C7 1 "p" _ [c0kvs] c1kvs [] courseDataC7 rfl ?_ rfl rfl ?_
    · intro q hq
      rw [List.mem_singleton] at hq
      subst hq
      rfl
    · intro cd hcd
      rcases List.mem_cons.mp hcd with h | h
      · subst h; rfl
      · rw [List.mem_singleton] at h
        subst h; rfl
  · rfl

/-- C8: `find_course_run` scans `course_runs` in order and returns the
first entry whose `key` or whose `external_key` equals `course_id`; if no
entry matches on either field it returns the not-found sentinel `None`. -/
theorem claim_C8 (p : DiscoveryProgram) (course_id : String) :
    (find_course_run p course_id = none ↔
      ∀ cr ∈ p.course_runs, runMatches course_id cr = false) ∧
    (∀ l1 cr l2, p.course_runs = l1 ++ cr :: l2 →
      (∀ cr2 ∈ l1, runMatches course_id cr2 = false) →
      runMatches course_id cr = true →
      find_course_run p course_id = some cr) := by
  constructor
  · unfold find_course_run
    rw [List.find?_eq_none]
    simp [Bool.not_eq_true]
  · intro l1 cr l2 hsplit h1 hm
    unfold find_course_run
    rw [hsplit]
    exact find?_first (runMatches course_id) l1 cr l2 h1 hm

/-- Witness for C8: the external key of the second run is found after a
non-matching first run. -/
theorem claim_C8_witness : find_course_run progRuns "x" = some runB := by
  refine (claim_C8 progRuns "x").2 [runA] runB [] rfl ?_ rfl
  intro cr2 h
  rw [List.mem_singleton] at h
  subst h
  rfl

/-- C9 counterexample: the claim says `ToExternalKey` returns NotFound
exactly when `FindCourseRun` finds no match, but both the not-found path
and a matched run whose `external_key` is null return the same Python
value `None` — on a program whose only run has key `"a"` and null
`external_key`, `get_external_course_key` returns `None` although
`find_course_run` returns the run. -/
theorem claim_C9_counterexample :
    ¬ (get_external_course_key progNullExt "a" = Json.null ↔
       find_course_run progNullExt "a" = none) := by
  intro h
  exact Option.noConfusion (h.mp rfl)

/-- C9 amended: whenever `find_course_run` returns NotFound, so do
`get_course_key` and `get_external_course_key`; whenever it returns a
run, they project that run's `key` / `external_key` field — which, being
nullable, can itself coincide with the NotFound sentinel `None`, so the
sentinel does not identify the no-match condition exactly. -/
theorem claim_C9_amended (p : DiscoveryProgram) (course_id : String) :
    (find_course_run p course_id = none →
      get_course_key p course_id = Json.null ∧
      get_external_course_key p course_id = Json.null) ∧
    (∀ cr, find_course_run p course_id = some cr →
      get_course_key p course_id = cr.key ∧
      get_external_course_key p course_id = cr.external_key) := by
  constructor
  · intro h
    unfold get_course_key get_external_course_key
    rw [h]
    exact ⟨rfl, rfl⟩
  · intro cr h
    unfold get_course_key get_external_course_key
    rw [h]
    exact ⟨rfl, rfl⟩

/-- Witness for C9 on the matched-run side. -/
theorem claim_C9_witness :
    get_course_key progNullExt "a" = Json.str "a" ∧
    get_external_course_key progNullExt "a" = Json.null :=
  (claim_C9_amended progNullExt "a").2 runA rfl

/-- C10: every record `from_json` produces (both the degraded and the
normal path) carries the class version the parser was invoked with, so an
entry just stored by a `get` miss passes the version check and is served
as a cache hit, with no fetch, by the next `get` within TTL. -/
theorem claim_C10 (ver : Nat) (uuid : String) :
    (∀ pd p, from_json ver uuid pd = .ok p → p.version = ver) ∧
    (∀ (fetch : String → FetchResult) (s : Store) (p : DiscoveryProgram),
      s (programCacheKey uuid) = none →
      (DiscoveryProgram.get ver fetch uuid s).result = .ok p →
      DiscoveryProgram.get ver fetch uuid
          ((DiscoveryProgram.get ver fetch uuid s).store) =
        ⟨.ok p, (DiscoveryProgram.get ver fetch uuid s).store, 0⟩) := by
  constructor
  · intro pd p h
    exact from_json_version ver uuid pd p h
  · intro fetch s p _ h
    exact get_after_ok ver fetch uuid s p h

/-- Witness for C10: the degraded-path record of the empty payload
carries version 1 when parsed at class version 1. -/
theorem claim_C10_witness :
    (⟨1, "p", Json.null, Json.null, Json.null, []⟩ :
      DiscoveryProgram).version = 1 :=
  (claim_C10 1 "p").1 (Json.obj [])
    ⟨1, "p", Json.null, Json.null, Json.null, []⟩ rfl
